import Mathlib

/-!
Verification of the MirrorNote voice-analysis flow.

The backend pipeline is embedded from the code shown in
src/VOICE_ANALYSIS_FLOW.md (the analyze-voice endpoint of backend/server.py,
the analyze_transcription helper and detect_filler_words); the frontend
display logic is embedded from src/frontend/app/results.tsx,
src/frontend/app/types/index.ts, the PersonalizedResults screen and the
history screen; the recording timer is embedded from the logic exercised in
src/frontend/__tests__/api.test.ts. External effects (the base64 decode, the
Whisper transcription call, the GPT call plus JSON parse, the question
generation call) are passed in as explicit step results, so the control flow
of the endpoint is a total function of those results.

Python floats are modelled as rationals; the Python int() conversion on a
nonnegative float is modelled as the rational floor.
-/

namespace MirrorNote

/-! ## Lexical analysis (analyze_transcription, detect_filler_words) -/

/-- Python str.split with no argument: split on runs of whitespace and drop
empty pieces.  Auxiliary recursion carrying the current word, reversed. -/
def pySplitAux : List Char → List Char → List (List Char)
  | [], cur => if cur.isEmpty then [] else [cur.reverse]
  | c :: cs, cur =>
    if c.isWhitespace then
      if cur.isEmpty then pySplitAux cs [] else cur.reverse :: pySplitAux cs []
    else pySplitAux cs (c :: cur)

/-- Python text.split() on a string, as a list of words. -/
def pySplit (text : String) : List (List Char) := pySplitAux text.data []

/-- word_count = len(text.split()) from analyze_transcription. -/
def word_count (text : String) : Nat := (pySplit text).length

/-- speaking_pace = int((word_count / recording_time) * 60) from
analyze_transcription.  The float division is modelled over the rationals and
int() as the floor, which agrees with the Python truncation toward zero
because both arguments are nonnegative.  (Python raises ZeroDivisionError for
recording_time = 0; the claims only concern positive durations.) -/
def speaking_pace (wc rt : Nat) : Int := Int.floor (((wc : ℚ) / (rt : ℚ)) * 60)

/-- Python str.lower on a character list (ASCII range, matching the
transcripts in the tests and documentation). -/
def pyLower (s : List Char) : List Char := s.map Char.toLower

/-- A regex word character, as used by the word-boundary anchors in the
filler patterns of detect_filler_words. -/
def isWordChar (c : Char) : Bool := c.isAlphanum || c == '_'

/-- Whether the second list starts with the first list. -/
def beginsWith : List Char → List Char → Bool
  | [], _ => true
  | _ :: _, [] => false
  | p :: ps, c :: cs => p == c && beginsWith ps cs

/-- One re.findall scan for a boundary-anchored pattern whose first and last
characters are word characters (true of every filler pattern).  A match needs
a non-word character (or the string start) right before, the literal pattern
text, and a non-word character (or the string end) right after; the scan then
resumes after the match, exactly like re.findall.  Fuel is the length of the
remaining text, so the recursion is structural. -/
def countMatchesAux (p : Char) (ps : List Char) : Nat → Option Char → List Char → Nat
  | 0, _, _ => 0
  | _ + 1, _, [] => 0
  | fuel + 1, prev, c :: cs =>
    let boundaryBefore := match prev with
      | none => true
      | some pc => !isWordChar pc
    let rest := (c :: cs).drop (ps.length + 1)
    let boundaryAfter := match rest with
      | [] => true
      | d :: _ => !isWordChar d
    if boundaryBefore && beginsWith (p :: ps) (c :: cs) && boundaryAfter then
      countMatchesAux p ps fuel (some (ps.getLastD p)) rest + 1
    else
      countMatchesAux p ps fuel (some c) cs

/-- len(re.findall(pattern, text)) for one boundary-anchored filler pattern
over an already lowercased text. -/
def countPattern (pat : String) (text : List Char) : Nat :=
  match pat.data with
  | [] => 0
  | p :: ps => countMatchesAux p ps text.length none text

/-- The fixed filler vocabulary of detect_filler_words, in the order the
Python dict literal lists the patterns. -/
def fillerVocab : List String :=
  ["um", "uh", "like", "you know", "so", "actually", "basically"]

/-- detect_filler_words: lowercase the text, count each pattern with word
boundaries, and keep only the entries with a positive count, in vocabulary
order (Python dicts preserve insertion order). -/
def detect_filler_words (text : String) : List (String × Nat) :=
  let tl := pyLower text.data
  (fillerVocab.map (fun f => (f, countPattern f tl))).filter (fun fc => 0 < fc.2)

/-! ## Backend pipeline (analyze_transcription and the analyze-voice endpoint) -/

/-- The JSON object returned by the GPT call inside analyze_transcription.
The prompt asks the model itself for archetype, overall_score, clarity_score,
confidence_score, tone, strengths, improvements, pitch_avg and pitch_range.
The model is also free to emit keys named speaking_pace, filler_words or
word_count; the dict spread in the return statement overwrites those three,
so they are kept here as optional fields that the merge discards. -/
structure GptAnalysis where
  archetype : String
  overall_score : Int
  clarity_score : Int
  confidence_score : Int
  tone : String
  strengths : List String
  improvements : List String
  pitch_avg : Int
  pitch_range : String
  gpt_speaking_pace : Option Int
  gpt_filler_words : Option (List (String × Nat))
  gpt_word_count : Option Nat
deriving Repr, DecidableEq

/-- The analysis dict returned by analyze_transcription and stored on the
assessment: the spread of the GPT JSON, with speaking_pace, filler_words and
word_count overwritten by the rule-computed values. -/
structure Analysis where
  archetype : String
  overall_score : Int
  clarity_score : Int
  confidence_score : Int
  tone : String
  strengths : List String
  improvements : List String
  pitch_avg : Int
  pitch_range : String
  speaking_pace : Int
  filler_words : List (String × Nat)
  word_count : Nat
deriving Repr, DecidableEq

/-- analyze_transcription(text, recording_time): computes word_count,
speaking_pace and filler_words from the transcript, then returns
the merge of the GPT JSON with those three keys overwritten.  The GPT
response is an explicit argument because the model call is external. -/
def analyze_transcription (text : String) (recording_time : Nat)
    (gpt : GptAnalysis) : Analysis :=
  let wc := word_count text
  let sp := speaking_pace wc recording_time
  let fw := detect_filler_words text
  { archetype := gpt.archetype
    overall_score := gpt.overall_score
    clarity_score := gpt.clarity_score
    confidence_score := gpt.confidence_score
    tone := gpt.tone
    strengths := gpt.strengths
    improvements := gpt.improvements
    pitch_avg := gpt.pitch_avg
    pitch_range := gpt.pitch_range
    speaking_pace := sp
    filler_words := fw
    word_count := wc }

/-- The only error shape the endpoint raises to its caller. -/
inductive ServerError where
  | httpException (status : Nat) (detail : String)
deriving Repr, DecidableEq

/-- The success payload of the analyze-voice endpoint. -/
structure AnalyzeResponse where
  assessment_id : String
  status : String
deriving Repr, DecidableEq

/-- Everything observable about one run of the analyze-voice endpoint:
the HTTP result, the analysis stored on the assessment document (none when
the run failed before step 4), and the messages sent to logger.error by the
top-level exception handler. -/
structure RunOutcome where
  result : Except ServerError AnalyzeResponse
  storedAnalysis : Option Analysis
  errorLog : List String
deriving Repr

/-- The analyze-voice endpoint of backend/server.py.  Auth and usage checks
raise HTTPException 401 and 403, which the handler re-raises unchanged; the
try block then decodes the base64 audio, transcribes it, analyzes the
transcription (the GPT call plus json.loads) and generates training
questions; any exception from those steps reaches the generic handler, which
calls logger.error, marks the assessment processed with the error string, and
raises HTTPException(500, str(e)).  The four fallible external steps are
passed as Except values: an error value is the str(e) of the exception that
step would raise.  There is no sample-count or container check of its own
anywhere in the body: a decoded byte buffer is handed to the transcription
service whatever it holds. -/
def analyze_voice (authUser : Option String) (usageAllowed : Bool)
    (usageReason : String) (assessment_id : String)
    (decodeStep : Except String (List Nat))
    (transcribeStep : Except String String)
    (gptStep : Except String GptAnalysis)
    (questionsStep : Except String (List String))
    (recording_time : Nat) : RunOutcome :=
  match authUser with
  | none =>
    { result := .error (.httpException 401 "Not authenticated")
      storedAnalysis := none, errorLog := [] }
  | some _ =>
    if !usageAllowed then
      { result := .error (.httpException 403 usageReason)
        storedAnalysis := none, errorLog := [] }
    else
      match decodeStep with
      | .error e =>
        { result := .error (.httpException 500 e)
          storedAnalysis := none, errorLog := ["Error: " ++ e] }
      | .ok _audio_bytes =>
        match transcribeStep with
        | .error e =>
          { result := .error (.httpException 500 e)
            storedAnalysis := none, errorLog := ["Error: " ++ e] }
        | .ok transcription =>
          match gptStep with
          | .error e =>
            { result := .error (.httpException 500 e)
              storedAnalysis := none, errorLog := ["Error: " ++ e] }
          | .ok gpt =>
            let analysis := analyze_transcription transcription recording_time gpt
            match questionsStep with
            | .error e =>
              { result := .error (.httpException 500 e)
                storedAnalysis := none, errorLog := ["Error: " ++ e] }
            | .ok _questions =>
              { result := .ok { assessment_id := assessment_id, status := "completed" }
                storedAnalysis := some analysis, errorLog := [] }

/-! ## Frontend display logic (results.tsx, types/index.ts, the
PersonalizedResults screen, the history screen) -/

/-- The fields of the analysis JSON object that the score extraction code
reads, each optional because the API payload may omit any of them.  The
nested insights and metrics objects are flattened: a missing parent object
makes its fields read as undefined, which Option none models. -/
structure ApiAnalysis where
  insights_overall_score : Option Int
  insights_clarity_score : Option Int
  insights_confidence_score : Option Int
  metrics_speaking_pace : Option Int
  overall_score : Option Int
  clarity_score : Option Int
  confidence_score : Option Int
  legacy_speaking_pace : Option Int
  pitch_avg : Option Int
  filler_words : List (String × Nat)
  filler_count : Option Int
deriving Repr, DecidableEq

/-- The JavaScript nullish-coalescing operator on two possibly-absent
numbers: a ?? b keeps a whenever a is neither null nor undefined, even when
a is 0. -/
def nullish (a b : Option Int) : Option Int :=
  match a with
  | some v => some v
  | none => b

/-- The JavaScript logical-or fallback on a possibly-absent number with a
concrete default: a || d yields d when a is null, undefined or the falsy
number 0, and yields a otherwise. -/
def jsOr (a : Option Int) (d : Int) : Int :=
  match a with
  | some v => if v = 0 then d else v
  | none => d

/-- results.tsx: overallScore = analysis?.insights?.overall_score ??
analysis?.overall_score ?? null. -/
def resultsOverallScore (a : ApiAnalysis) : Option Int :=
  nullish a.insights_overall_score (nullish a.overall_score none)

/-- results.tsx: clarityScore with the same nullish chain. -/
def resultsClarityScore (a : ApiAnalysis) : Option Int :=
  nullish a.insights_clarity_score (nullish a.clarity_score none)

/-- results.tsx: confidenceScore with the same nullish chain. -/
def resultsConfidenceScore (a : ApiAnalysis) : Option Int :=
  nullish a.insights_confidence_score (nullish a.confidence_score none)

/-- results.tsx: speakingPace = analysis?.metrics?.speaking_pace ??
analysis?.speaking_pace ?? null. -/
def resultsSpeakingPace (a : ApiAnalysis) : Option Int :=
  nullish a.metrics_speaking_pace (nullish a.legacy_speaking_pace none)

/-- results.tsx: pitchAvg = analysis?.pitch_avg ?? null. -/
def resultsPitchAvg (a : ApiAnalysis) : Option Int :=
  nullish a.pitch_avg none

/-- results.tsx renders a missing numeric value as the text N/A:
the JSX expression value ?? "N/A". -/
def displayNum : Option Int → String
  | some v => toString v
  | none => "N/A"

/-- getOverallScore from types/index.ts: null for a missing analysis, then
insights?.overall_score ?? overall_score, with undefined mapped to null. -/
def getOverallScore (a : Option ApiAnalysis) : Option Int :=
  match a with
  | none => none
  | some a => nullish a.insights_overall_score a.overall_score

/-- The score shown by the PersonalizedResults screen:
insights?.overall_score || analysis.overall_score || 75. -/
def personalizedResultsScore (a : ApiAnalysis) : Int :=
  jsOr a.insights_overall_score (jsOr a.overall_score 75)

/-- The score badge of the history screen:
item.analysis?.insights?.overall_score || item.analysis?.overall_score || 0. -/
def historyItemScore (a : ApiAnalysis) : Int :=
  jsOr a.insights_overall_score (jsOr a.overall_score 0)

/-- The filler-words section of results.tsx: rendered only when
fillerCount > 0, in which case each word gets a bar of width
(count / fillerCount) * 100 percent.  fillerCount itself is
analysis?.filler_count ?? 0. -/
def resultsFillerCount (a : ApiAnalysis) : Int :=
  (nullish a.filler_count (some 0)).getD 0

/-- The rendered filler section: none when the guard fillerCount > 0 fails,
otherwise one (word, count, bar width) row per filler entry. -/
def fillerSection (filler_words : List (String × Nat)) (fillerCount : Int) :
    Option (List (String × Nat × ℚ)) :=
  if 0 < fillerCount then
    some (filler_words.map fun wc => (wc.1, wc.2, ((wc.2 : ℚ) / (fillerCount : ℚ)) * 100))
  else
    none

/-! ## Recording timer (logic exercised in the recording-screen tests) -/

/-- The recording timer state of the recording screen: the elapsed seconds
and the auto-stop flag. -/
structure TimerState where
  recordingTime : Nat
  shouldStop : Bool
deriving Repr, DecidableEq

/-- One timer tick as written in the tests: increment the elapsed time, and
raise the stop flag once it reaches 120 seconds. -/
def incrementTime (s : TimerState) : TimerState :=
  let t := s.recordingTime + 1
  { recordingTime := t, shouldStop := s.shouldStop || decide (t ≥ 120) }

/-- Modelled from the spec: the recording screen itself (recording.tsx,
absent from src, documented as recording at most 2 minutes and exercised by
the timer tests) stops the timer as soon as shouldStop is raised, so a tick
only happens while the recording is still running. -/
def recorderTick (s : TimerState) : TimerState :=
  if s.shouldStop then s else incrementTime s

/-- The timer state after n seconds of recording, starting from zero. -/
def recorderAfter (n : Nat) : TimerState :=
  recorderTick^[n] { recordingTime := 0, shouldStop := false }

/-! ## Sample values used by concrete evaluations -/

/-- A neutral, well-formed GPT response. -/
def sampleGpt : GptAnalysis :=
  { archetype := "Confident Presenter", overall_score := 82, clarity_score := 85
    confidence_score := 80, tone := "Professional"
    strengths := ["Clear articulation"], improvements := ["Reduce filler words"]
    pitch_avg := 150, pitch_range := "Medium"
    gpt_speaking_pace := none, gpt_filler_words := none, gpt_word_count := none }

/-- A GPT response reporting low scores; only the scores differ from
sampleGptHigh. -/
def sampleGptLow : GptAnalysis :=
  { sampleGpt with overall_score := 10, clarity_score := 12, confidence_score := 15 }

/-- A GPT response reporting high scores; only the scores differ from
sampleGptLow. -/
def sampleGptHigh : GptAnalysis :=
  { sampleGpt with overall_score := 90, clarity_score := 92, confidence_score := 95 }

/-- A GPT response reporting scores outside [0, 100]. -/
def sampleGptOutOfRange : GptAnalysis :=
  { sampleGpt with overall_score := 150, clarity_score := -5, confidence_score := 120 }

/-- An analysis JSON object with every numeric field absent, as delivered
when the upstream analysis failed or the document is incomplete. -/
def emptyApiAnalysis : ApiAnalysis :=
  { insights_overall_score := none, insights_clarity_score := none
    insights_confidence_score := none, metrics_speaking_pace := none
    overall_score := none, clarity_score := none, confidence_score := none
    legacy_speaking_pace := none, pitch_avg := none
    filler_words := [], filler_count := none }

/-! ## Helper lemmas -/

/-- The Python expression int((wc / rt) * 60) equals the integer division
(wc * 60) / rt: the rational quotient is nonnegative, so truncation is the
floor, and the floor of a quotient of naturals is their integer division. -/
theorem speaking_pace_eq_div (wc rt : Nat) :
    speaking_pace wc rt = ((wc * 60) / rt : ℕ) := by
  unfold speaking_pace
  have h1 : ((wc : ℚ) / (rt : ℚ)) * 60 = ((wc * 60 : ℕ) : ℚ) / ((rt : ℕ) : ℚ) := by
    push_cast; ring
  rw [h1, ← Int.natCast_floor_eq_floor (by positivity), Nat.floor_div_eq_div]

/-- Closed form of the recorder timer: after n ticks the elapsed time is
min n 120 and the stop flag is raised exactly once 120 is reached. -/
theorem recorderAfter_eq (n : Nat) :
    recorderAfter n = { recordingTime := min n 120, shouldStop := decide (120 ≤ n) } := by
  induction n with
  | zero => simp [recorderAfter]
  | succ n ih =>
    have step : recorderAfter (n + 1) = recorderTick (recorderAfter n) := by
      rw [recorderAfter, recorderAfter, Function.iterate_succ_apply']
    rw [step, ih]
    by_cases h : 120 ≤ n
    · have h2 : 120 ≤ n + 1 := by omega
      have h3 : min n 120 = 120 := by omega
      have h4 : min (n + 1) 120 = 120 := by omega
      simp [recorderTick, h, h2, h3, h4]
    · have h3 : min n 120 = n := by omega
      have h4 : min (n + 1) 120 = n + 1 := by omega
      simp [recorderTick, h, h3, h4, incrementTime]

/-! ## Claim theorems -/

/-- C1: the used results screen and the typed helpers present a missing
overall, clarity, confidence, pace or pitch value as null, displayed N/A;
but the PersonalizedResults screen of the same repository presents the
fabricated default 75 for a missing overall score (and even for a genuine
score of 0, which JavaScript treats as falsy), and the history screen
presents the fabricated default 0.  The repository test suite marks the
hardcoded defaults as a bug, so the claim states the intent and the two
screens violate it. -/
theorem c1_missing_scores_presentation :
    resultsOverallScore emptyApiAnalysis = none ∧
    resultsClarityScore emptyApiAnalysis = none ∧
    resultsConfidenceScore emptyApiAnalysis = none ∧
    resultsSpeakingPace emptyApiAnalysis = none ∧
    resultsPitchAvg emptyApiAnalysis = none ∧
    displayNum none = "N/A" ∧
    getOverallScore (some emptyApiAnalysis) = none ∧
    getOverallScore none = none ∧
    personalizedResultsScore emptyApiAnalysis = 75 ∧
    historyItemScore emptyApiAnalysis = 0 ∧
    personalizedResultsScore
      { emptyApiAnalysis with insights_overall_score := some 0 } = 75 := by
  decide

/-- C2 counterexample: the merged analysis takes its overall score from the
model response, so two model responses that differ only in their scores
yield merged records with different scores — the model output does override
the numeric scores, there is no rule-based score for the merge to keep. -/
theorem c2_scores_follow_model_counterexample :
    (analyze_transcription "hello world" 60 sampleGptLow).overall_score = 10 ∧
    (analyze_transcription "hello world" 60 sampleGptHigh).overall_score = 90 ∧
    (analyze_transcription "hello world" 60 sampleGptLow).overall_score ≠
      (analyze_transcription "hello world" 60 sampleGptHigh).overall_score := by
  refine ⟨rfl, rfl, by decide⟩

/-- C2 amended: the dict-spread merge in analyze_transcription preserves the
rule-computed fields speaking_pace, filler_words and word_count whatever the
model returned (any such keys in the model JSON are overwritten), while the
three numeric scores are taken from the model response. -/
theorem c2_merge_preserves_rule_fields :
    ∀ (text : String) (rt : Nat) (g₁ g₂ : GptAnalysis),
      (analyze_transcription text rt g₁).speaking_pace =
        (analyze_transcription text rt g₂).speaking_pace ∧
      (analyze_transcription text rt g₁).filler_words =
        (analyze_transcription text rt g₂).filler_words ∧
      (analyze_transcription text rt g₁).word_count =
        (analyze_transcription text rt g₂).word_count ∧
      (analyze_transcription text rt g₁).overall_score = g₁.overall_score ∧
      (analyze_transcription text rt g₁).clarity_score = g₁.clarity_score ∧
      (analyze_transcription text rt g₁).confidence_score = g₁.confidence_score := by
  intro text rt g₁ g₂
  exact ⟨rfl, rfl, rfl, rfl, rfl, rfl⟩

/-- C3 counterexample: a timeout of the language-model call reaches the
generic exception handler, which fails the whole run with HTTPException 500,
stores no analysis, and records the failure through logger.error — not as a
warning, and no rule-based record is returned. -/
theorem c3_model_failure_fails_run_counterexample :
    analyze_voice (some "user-1") true "" "a-1" (.ok [7]) (.ok "hello world")
        (.error "Request timed out") (.ok []) 60 =
      { result := .error (.httpException 500 "Request timed out")
        storedAnalysis := none
        errorLog := ["Error: Request timed out"] } := rfl

/-- C3 amended: every failure of the language-model analysis step aborts the
run with HTTPException status 500 carrying the exception string, stores no
analysis, and logs the failure at error level. -/
theorem c3_model_failure_http500 :
    ∀ (u r aid : String) (bytes : List Nat) (t e : String)
      (qs : Except String (List String)) (rt : Nat),
      analyze_voice (some u) true r aid (.ok bytes) (.ok t) (.error e) qs rt =
        { result := .error (.httpException 500 e)
          storedAnalysis := none
          errorLog := ["Error: " ++ e] } := by
  intros; rfl

/-- C4 counterexample: the code computes int((1 / 7) * 60) = 8 for a
one-word transcript over 7 seconds, while the claimed formula
round(1 / 7 * 60) gives 9, so speaking_pace is a truncation, not a nearest
rounding. -/
theorem c4_pace_not_rounded_counterexample :
    word_count "one" = 1 ∧
    (analyze_transcription "one" 7 sampleGpt).speaking_pace = 8 ∧
    round (((1 : ℚ) / 7) * 60) = 9 ∧ (8 : ℤ) ≠ 9 := by
  refine ⟨by decide, ?_, ?_, by decide⟩
  · show speaking_pace (word_count "one") 7 = 8
    have h : word_count "one" = 1 := by decide
    rw [h, speaking_pace_eq_div]
    norm_num
  · rw [round_eq, Int.floor_eq_iff]
    norm_num

/-- C4 amended: for every transcript and positive duration, speaking_pace is
the floor (Python int truncation) of word_count / duration times 60, namely
the integer division (word_count * 60) / duration; the instance of the claim
with word_count 150 and duration 60 seconds still yields 150. -/
theorem c4_pace_floor_division :
    (∀ (text : String) (rt : Nat) (g : GptAnalysis), 0 < rt →
      (analyze_transcription text rt g).speaking_pace =
        ((word_count text * 60) / rt : ℕ)) ∧
    speaking_pace 150 60 = 150 := by
  constructor
  · intro text rt g _
    exact speaking_pace_eq_div (word_count text) rt
  · rw [speaking_pace_eq_div]; norm_num

/-- C4 witness: the amended statement applied to a concrete transcript and a
concrete positive duration. -/
theorem c4_pace_floor_division_witness :
    0 < 60 ∧
      (analyze_transcription "hello world" 60 sampleGpt).speaking_pace =
        ((word_count "hello world" * 60) / 60 : ℕ) :=
  ⟨by decide, c4_pace_floor_division.1 "hello world" 60 sampleGpt (by decide)⟩

/-- C5: filler detection over the fixed vocabulary is as claimed: the
transcript with the three case variants of um yields a count of 3 for um;
every reported entry has a positive count and comes from the fixed
vocabulary; and the counts depend only on the lowercased transcript, so
matching is case-insensitive (and re-running on the same transcript is the
same function application, hence idempotent). -/
theorem c5_filler_detection :
    detect_filler_words "Um, UM, um" = [("um", 3)] ∧
    (∀ (t : String), ∀ p ∈ detect_filler_words t, 0 < p.2 ∧ p.1 ∈ fillerVocab) ∧
    (∀ t₁ t₂ : String, pyLower t₁.data = pyLower t₂.data →
      detect_filler_words t₁ = detect_filler_words t₂) := by
  refine ⟨by decide, ?_, ?_⟩
  · intro t p hp
    unfold detect_filler_words at hp
    simp only [List.mem_filter, List.mem_map] at hp
    obtain ⟨⟨f, hf, rfl⟩, hpos⟩ := hp
    exact ⟨by simpa using hpos, hf⟩
  · intro t₁ t₂ h
    unfold detect_filler_words
    rw [h]

/-- C5 witness: the membership part at the concrete transcript of the claim,
and the case-insensitivity part applied to that transcript and its
lowercased form. -/
theorem c5_filler_detection_witness :
    (0 < (("um", 3) : String × Nat).2 ∧ (("um", 3) : String × Nat).1 ∈ fillerVocab) ∧
    detect_filler_words "Um, UM, um" = detect_filler_words "um, um, um" :=
  ⟨c5_filler_detection.2.1 "Um, UM, um" ("um", 3) (by decide),
   c5_filler_detection.2.2 "Um, UM, um" "um, um, um" (by decide)⟩

/-- C6 counterexample: the pipeline applies no clamping, so a model response
reporting 150 and -5 produces an analysis whose scores leave [0, 100], even
on the degenerate empty transcript. -/
theorem c6_scores_unclamped_counterexample :
    (analyze_transcription "" 60 sampleGptOutOfRange).overall_score = 150 ∧
    (analyze_transcription "" 60 sampleGptOutOfRange).clarity_score = -5 ∧
    ¬ ((analyze_transcription "" 60 sampleGptOutOfRange).overall_score ≤ 100) ∧
    ¬ (0 ≤ (analyze_transcription "" 60 sampleGptOutOfRange).clarity_score) := by
  refine ⟨rfl, rfl, by decide, by decide⟩

/-- C6 amended: the three scores of the produced analysis equal the model
reported scores unchanged, for every input; hence they lie within [0, 100]
exactly when the model values do, and for no input does the pipeline itself
enforce the bounds. -/
theorem c6_scores_equal_model_scores :
    ∀ (text : String) (rt : Nat) (g : GptAnalysis),
      (analyze_transcription text rt g).overall_score = g.overall_score ∧
      (analyze_transcription text rt g).clarity_score = g.clarity_score ∧
      (analyze_transcription text rt g).confidence_score = g.confidence_score ∧
      ((0 ≤ (analyze_transcription text rt g).overall_score ∧
          (analyze_transcription text rt g).overall_score ≤ 100 ∧
          0 ≤ (analyze_transcription text rt g).clarity_score ∧
          (analyze_transcription text rt g).clarity_score ≤ 100 ∧
          0 ≤ (analyze_transcription text rt g).confidence_score ∧
          (analyze_transcription text rt g).confidence_score ≤ 100) ↔
        (0 ≤ g.overall_score ∧ g.overall_score ≤ 100 ∧
          0 ≤ g.clarity_score ∧ g.clarity_score ≤ 100 ∧
          0 ≤ g.confidence_score ∧ g.confidence_score ≤ 100)) := by
  intro text rt g
  exact ⟨rfl, rfl, rfl, Iff.rfl⟩

/-- C7 counterexample: a byte buffer that decodes to zero bytes (hence zero
samples) is not rejected: with the external services succeeding, the run
completes normally and stores an analysis, so no EmptyAudioError is raised
when the decoded sample count is zero. -/
theorem c7_empty_audio_accepted_counterexample :
    analyze_voice (some "user-1") true "" "a-2" (.ok []) (.ok "")
        (.ok sampleGpt) (.ok []) 60 =
      { result := .ok { assessment_id := "a-2", status := "completed" }
        storedAnalysis := some (analyze_transcription "" 60 sampleGpt)
        errorLog := [] } := rfl

/-- C7 amended: the endpoint has no DecodeError or EmptyAudioError: a base64
decode failure — like every other non-HTTP failure — surfaces as the one
generic HTTPException with status 500 carrying the exception string, and a
zero-sample decoded buffer is not detected at all, the run completing
normally when the external services succeed. -/
theorem c7_generic_http500_errors :
    (∀ (u r aid e : String) (ts : Except String String)
        (gs : Except String GptAnalysis) (qs : Except String (List String)) (rt : Nat),
      analyze_voice (some u) true r aid (.error e) ts gs qs rt =
        { result := .error (.httpException 500 e)
          storedAnalysis := none
          errorLog := ["Error: " ++ e] }) ∧
    (∀ (u aid t : String) (g : GptAnalysis) (qs : List String) (rt : Nat),
      (analyze_voice (some u) true "" aid (.ok []) (.ok t) (.ok g) (.ok qs) rt).result =
        .ok { assessment_id := aid, status := "completed" }) := by
  constructor <;> intros <;> rfl

/-- C8 counterexample: with the model call failing — the closest the code
comes to a disabled refiner — the pipeline produces no analysis record at
all: the run fails with HTTPException 500 and nothing is stored, so no two
runs produce (identical or otherwise) insight prose and scores. -/
theorem c8_refiner_disabled_no_record_counterexample :
    (analyze_voice (some "user-1") true "" "a-3" (.ok [7]) (.ok "hello")
        (.error "refiner disabled") (.ok []) 60).storedAnalysis = none ∧
    (analyze_voice (some "user-1") true "" "a-3" (.ok [7]) (.ok "hello")
        (.error "refiner disabled") (.ok []) 60).result =
      .error (.httpException 500 "refiner disabled") :=
  ⟨rfl, rfl⟩

/-- C8 amended: the rule-computed fields word_count, speaking_pace and
filler_words are a deterministic function of transcript and duration,
identical across runs even when the model responses differ; the prose and
scores come from the model response, and with the model failing no analysis
record is produced at all. -/
theorem c8_rule_fields_deterministic :
    (∀ (text : String) (rt : Nat) (g₁ g₂ : GptAnalysis),
      (analyze_transcription text rt g₁).word_count =
        (analyze_transcription text rt g₂).word_count ∧
      (analyze_transcription text rt g₁).speaking_pace =
        (analyze_transcription text rt g₂).speaking_pace ∧
      (analyze_transcription text rt g₁).filler_words =
        (analyze_transcription text rt g₂).filler_words) ∧
    (∀ (u r aid : String) (b : List Nat) (t e : String)
        (q : Except String (List String)) (rt : Nat),
      (analyze_voice (some u) true r aid (.ok b) (.ok t) (.error e) q rt).storedAnalysis
        = none) := by
  constructor
  · intro text rt g₁ g₂; exact ⟨rfl, rfl, rfl⟩
  · intros; rfl

/-- C9: the recording timer never passes 120 seconds: after any number of
ticks the elapsed time is at most 120, at 119 seconds the stop flag is still
down, the flag is raised exactly when 120 is reached, and every longer run
stays frozen at 120 — so the recording_time submitted to the analyze request
never exceeds 120. -/
theorem c9_recording_time_bounded :
    (∀ n : Nat, (recorderAfter n).recordingTime ≤ 120) ∧
    (recorderAfter 119).recordingTime = 119 ∧
    (recorderAfter 119).shouldStop = false ∧
    recorderAfter 120 = { recordingTime := 120, shouldStop := true } ∧
    (∀ n : Nat, 120 ≤ n →
      recorderAfter n = { recordingTime := 120, shouldStop := true }) := by
  refine ⟨?_, ?_, ?_, ?_, ?_⟩
  · intro n; rw [recorderAfter_eq]; simp
  · rw [recorderAfter_eq]; simp
  · rw [recorderAfter_eq]; simp
  · rw [recorderAfter_eq]; simp
  · intro n h
    rw [recorderAfter_eq]
    have h1 : min n 120 = 120 := by omega
    simp [h1, h]

/-- C9 witness: the bound applied to a run of 150 ticks. -/
theorem c9_recording_time_bounded_witness :
    120 ≤ 150 ∧ recorderAfter 150 = { recordingTime := 120, shouldStop := true } :=
  ⟨by decide, c9_recording_time_bounded.2.2.2.2 150 (by decide)⟩

/-- C10: whenever the filler-words section renders its rows, the guard has
ensured a strictly positive fillerCount, so every bar width
(count / fillerCount) * 100 divides by a nonzero denominator; a zero
fillerCount renders nothing. -/
theorem c10_filler_bar_positive_denominator :
    (∀ (fw : List (String × Nat)) (fc : Int) (rows : List (String × Nat × ℚ)),
      fillerSection fw fc = some rows →
      0 < fc ∧ (fc : ℚ) ≠ 0 ∧
        rows = fw.map fun wc => (wc.1, wc.2, ((wc.2 : ℚ) / (fc : ℚ)) * 100)) ∧
    (∀ fw : List (String × Nat), fillerSection fw 0 = none) := by
  constructor
  · intro fw fc rows h
    unfold fillerSection at h
    split at h
    · next hpos =>
      refine ⟨hpos, ?_, by injection h with h; exact h.symm⟩
      exact_mod_cast (by omega : fc ≠ 0)
    · exact absurd h (by simp)
  · intro fw; rfl

/-- C10 witness: the guard property at the concrete filler data of the
repository tests, with bar widths 50, 30 and 20 percent. -/
theorem c10_filler_bar_positive_denominator_witness :
    0 < (10 : Int) ∧ ((10 : Int) : ℚ) ≠ 0 ∧
      ([("um", 5, 50), ("uh", 3, 30), ("like", 2, 20)] : List (String × Nat × ℚ)) =
        ([("um", 5), ("uh", 3), ("like", 2)] : List (String × Nat)).map
          (fun wc => (wc.1, wc.2, ((wc.2 : ℚ) / ((10 : Int) : ℚ)) * 100)) :=
  c10_filler_bar_positive_denominator.1
    [("um", 5), ("uh", 3), ("like", 2)] 10
    [("um", 5, 50), ("uh", 3, 30), ("like", 2, 20)]
    (by norm_num [fillerSection])

end MirrorNote
